import Mathlib

/-!
Verification of the config-storage / theme-resolution core of the
`ever-after-invites` backend (`src/server.py`), as a shallow embedding.

Modelling conventions:

* JSON documents are an inductive `Json` value type.  `json.dump` /
  `json.load` are mutually inverse on JSON-representable values, so a file
  holding a valid JSON document is modelled as holding the document itself
  (`Content.json doc`); a file holding bytes that are *not* valid JSON
  (e.g. the empty byte string left by `open(path, "w")` right after
  truncation) is modelled as `Content.invalid bytes`.
* The working directory that holds `config.json` and the
  `config.backup.*.json` artifacts is a flat association list `FS` from
  filename to `Content`.  `putFile` overwrites an existing entry in place
  or appends a new one; Python writes and `shutil.copy` never delete files.
* `datetime.now().timestamp() * 1000` is nondeterministic, so the
  millisecond timestamp is an explicit `ts : Nat` argument of `save` and
  `restore`.
* Python string operations used by the source (`str.startswith`,
  `Path.stem`, `str.split`, `int(...)`) are re-implemented over `List Char`
  with structural recursion so that every definition is executable and
  kernel-reducible; `int()` follows CPython's grammar (whitespace
  stripping, one sign, Unicode Nd digits, underscores between digits).
* The `datetime.fromtimestamp(timestamp / 1000)` call inside
  `list_backups`' `try` block is modelled by its outcome class
  (`fromtimestampOutcome`): success, a caught `ValueError` for dates
  outside `datetime`'s year range, or an uncaught
  `OverflowError`/`OSError` far beyond it, with boundaries measured on
  the reference platform.
-/

namespace EverAfter

/-- JSON values, the schema-less configuration documents of the source.
Numbers are modelled as integers (the documents the store handles
round-trip exactly through `json.dump`/`json.load`; JSON floats are out of
scope of the claims). -/
inductive Json where
  | null
  | bool (b : Bool)
  | num (n : Int)
  | str (s : String)
  | arr (elems : List Json)
  | obj (fields : List (String × Json))

/-- Error outcomes of the source: the `HTTPException`s 404 `notFound`,
400 `invalidArgument` and 403 `forbidden`; `parseError` for an unhandled
`json.JSONDecodeError` (surfaces as a 500); and `overflowError` for the
unhandled `OverflowError`/`OSError` that
`datetime.fromtimestamp(timestamp / 1000)` raises for timestamps far
beyond the platform's time range (also a 500 — the source catches only
`ValueError`). -/
inductive Err where
  | notFound
  | invalidArgument
  | forbidden
  | parseError
  | overflowError
deriving DecidableEq, Repr

/-- Bytes of a file: either a valid JSON document or bytes that do not
parse as JSON (such as the empty string an `open(path, "w")` leaves right
after truncating). -/
inductive Content where
  | json (doc : Json)
  | invalid (bytes : String)

/-- The flat working directory: association list from filename to file
content. -/
abbrev FS := List (String × Content)

/-- Look a filename up in the directory. -/
def findFile : FS → String → Option Content
  | [], _ => none
  | (n, c) :: rest, name => if name = n then some c else findFile rest name

/-- Write a file: overwrite the existing entry in place, or append a new
entry.  This is the only way the model mutates the directory — Python
`open(.., "w")`, `json.dump` and `shutil.copy` never delete files. -/
def putFile : FS → String → Content → FS
  | [], name, c => [(name, c)]
  | (n, c0) :: rest, name, c =>
      if name = n then (n, c) :: rest else (n, c0) :: putFile rest name c

/-- Python `s.startswith(p)`. -/
def strStartsWith (s p : String) : Bool :=
  p.data.isPrefixOf s.data

/-- Python `s.endswith(p)`. -/
def strEndsWith (s p : String) : Bool :=
  p.data.isSuffixOf s.data

/-- Split a character list at every occurrence of `sep` (Python
`str.split(sep)` for a one-character separator). -/
def splitOnChar (sep : Char) : List Char → List (List Char)
  | [] => [[]]
  | c :: rest =>
      let r := splitOnChar sep rest
      if c = sep then [] :: r
      else
        match r with
        | [] => [[c]]
        | g :: gs => (c :: g) :: gs

/-- Join groups back with `'.'` between them (inverse direction of
`splitOnChar '.'`, used to rebuild `Path.stem`). -/
def joinDots : List (List Char) → List Char
  | [] => []
  | [g] => g
  | g :: gs => g ++ '.' :: joinDots gs

/-- `pathlib.Path(name).stem`: the filename without its final suffix.
(Names matched by the backup glob always contain a dot and do not begin
with one, which is the regime where this equals `Path.stem`.) -/
def pathStem (name : List Char) : List Char :=
  let parts := splitOnChar '.' name
  if parts.length ≤ 1 then name else joinDots parts.dropLast

/-- Python `stem.split(".")[-1]`: the last dot-separated segment. -/
def lastDotSegment (s : List Char) : List Char :=
  (splitOnChar '.' s).getLastD []

/-- Code points Python's `int()` accepts as ignorable surrounding
whitespace.  Determined on the reference interpreter (CPython 3.11) by
testing, for every code point `c`, whether `int(chr(c) + "5")` is `5`:
the ASCII whitespace `\t \n \v \f \r` and space, NEL (U+0085), NBSP
(U+00A0), Ogham space (U+1680), U+2000–U+200A, U+2028, U+2029, U+202F,
U+205F and U+3000.  (The control characters U+001C–U+001F, although
`str.isspace`, are rejected by `int()` and are therefore not listed.) -/
def pyIntSpaceCodes : List Nat :=
  [0x9, 0xA, 0xB, 0xC, 0xD, 0x20, 0x85, 0xA0, 0x1680,
   0x2000, 0x2001, 0x2002, 0x2003, 0x2004, 0x2005, 0x2006, 0x2007,
   0x2008, 0x2009, 0x200A, 0x2028, 0x2029, 0x202F, 0x205F, 0x3000]

/-- Whether `int()` treats the character as strippable whitespace. -/
def isPyIntSpace (c : Char) : Bool :=
  pyIntSpaceCodes.contains c.toNat

/-- First code point of every run of ten Unicode decimal digits
(category Nd): Python's `int()` accepts any of these digits, valuing the
character at `start + d` as the digit `d`.  Generated from the Unicode
data of the reference interpreter (CPython 3.11), checking that every Nd
character sits in one of these runs with `unicodedata.decimal` equal to
its offset. -/
def ndRangeStarts : List Nat :=
  [48, 1632, 1776, 1984, 2406, 2534, 2662, 2790, 2918, 3046, 3174, 3302,
   3430, 3558, 3664, 3792, 3872, 4160, 4240, 6112, 6160, 6470, 6608, 6784,
   6800, 6992, 7088, 7232, 7248, 42528, 43216, 43264, 43472, 43504, 43600,
   44016, 65296, 66720, 68912, 69734, 69872, 69942, 70096, 70384, 70736,
   70864, 71248, 71360, 71472, 71904, 72016, 72784, 73040, 73120, 92768,
   92864, 93008, 120782, 120792, 120802, 120812, 120822, 123200, 123632,
   125264, 130032]

/-- The decimal value of a character when Python treats it as a decimal
digit (Unicode category Nd), `none` otherwise. -/
def pyDecDigit? (c : Char) : Option Nat :=
  (ndRangeStarts.find? (fun s => decide (s ≤ c.toNat ∧ c.toNat < s + 10))).map
    (fun s => c.toNat - s)

/-- The digit-and-underscore run of an integer literal: underscores are
allowed only singly and strictly between digits, and at least one digit
is required.  `prev` records whether the previous character was a digit
(so the run may neither start nor end with an underscore, nor contain
two in a row). -/
def pyDigitsVal? : Nat → Bool → List Char → Option Nat
  | acc, prev, [] => if prev then some acc else none
  | acc, prev, c :: rest =>
      match pyDecDigit? c with
      | some d => pyDigitsVal? (acc * 10 + d) true rest
      | none =>
          if c = '_' ∧ prev = true then pyDigitsVal? acc false rest
          else none

/-- Python `int(s)` (base 10): strip the accepted whitespace on both
sides, one optional `+`/`-` sign, then a nonempty run of Unicode decimal
digits with single underscores strictly between digits; any other input
raises `ValueError` (`none`).  Checked against CPython 3.11 on
`"1_0" = 10`, `"+5" = 5`, `" 5 " = 5`, mixed-script digits, and the
rejections `"5_"`, `"_5"`, `"1__0"`, `"--5"`, `"+ 5"`, `""`. -/
def pyInt? (s : List Char) : Option Int :=
  let l1 := s.dropWhile isPyIntSpace
  let signed : Bool × List Char :=
    match l1 with
    | '+' :: rest => (false, rest)
    | '-' :: rest => (true, rest)
    | _ => (false, l1)
  let body := signed.2.takeWhile (fun c => (pyDecDigit? c).isSome || c == '_')
  let tail := signed.2.dropWhile (fun c => (pyDecDigit? c).isSome || c == '_')
  if tail.all isPyIntSpace then
    match pyDigitsVal? 0 false body with
    | none => none
    | some n => some (if signed.1 then -(n : Int) else (n : Int))
  else none

/-- `FileConfigStorage` (src/server.py:192-253): the file-based config
store, holding the path of the current configuration document
(`config.json` by default). -/
structure FileConfigStorage where
  config_file : String

/-- The store as instantiated by the source: `FileConfigStorage()` with
`config_file = "config.json"`. -/
def defaultStore : FileConfigStorage := ⟨"config.json"⟩

/-- The backup artifact name generated by `save`:
`f"config.backup.{timestamp}.json"`. -/
def backupFilename (ts : Nat) : String :=
  "config.backup." ++ toString ts ++ ".json"

/-- `FileConfigStorage.get` (src/server.py:201-207): 404 if the current
document file does not exist, otherwise `json.load` of its bytes (which
raises if the bytes are not valid JSON). -/
def FileConfigStorage.get (st : FileConfigStorage) (fs : FS) : Except Err Json :=
  match findFile fs st.config_file with
  | none => Except.error Err.notFound
  | some (Content.json doc) => Except.ok doc
  | some (Content.invalid _) => Except.error Err.parseError

/-- `FileConfigStorage.save` (src/server.py:209-222): copies the current
document (if present) to `config.backup.<ts>.json`, then overwrites the
current document with `config`, and returns the backup filename — which it
returns even when no prior document existed and no backup was made.  The
`event_id` argument is accepted and ignored, exactly as in the source. -/
def FileConfigStorage.save (st : FileConfigStorage) (fs : FS) (config : Json)
    (ts : Nat) (event_id : String) : FS × String :=
  let backup_path := backupFilename ts
  let fs1 :=
    match findFile fs st.config_file with
    | some cur => putFile fs backup_path cur
    | none => fs
  (putFile fs1 st.config_file (Content.json config), backup_path)

/-- The successive directory states a `save` exposes to a concurrent
reader, one per filesystem effect of the source:
after the `shutil.copy` backup (if any), after `open(config_file, "w")`
truncates the current file to zero bytes, and after `json.dump` has
written the new contents. -/
def FileConfigStorage.saveStates (st : FileConfigStorage) (fs : FS) (config : Json)
    (ts : Nat) (event_id : String) : List FS :=
  let backup_path := backupFilename ts
  let fs1 :=
    match findFile fs st.config_file with
    | some cur => putFile fs backup_path cur
    | none => fs
  let fs2 := putFile fs1 st.config_file (Content.invalid "")
  let fs3 := putFile fs2 st.config_file (Content.json config)
  [fs1, fs2, fs3]

/-- `FileConfigStorage.restore` (src/server.py:240-253): 400 unless the
filename starts with `config.backup.`, 404 if the named file does not
exist; then `self.save(self.get(), "pre-restore")` (so a failing `get`
propagates), and finally `shutil.copy` of the backup's bytes over the
current document.  Returns the directory reached together with the
outcome; on an error the directory is whatever had been written so far
(the early failures happen before any write). -/
def FileConfigStorage.restore (st : FileConfigStorage) (fs : FS)
    (backup_filename : String) (ts : Nat) : FS × Except Err Unit :=
  if strStartsWith backup_filename "config.backup." = false then
    (fs, Except.error Err.invalidArgument)
  else if (findFile fs backup_filename).isNone then
    (fs, Except.error Err.notFound)
  else
    match st.get fs with
    | Except.error e => (fs, Except.error e)
    | Except.ok current =>
      let fs1 := (st.save fs current ts "pre-restore").1
      match findFile fs1 backup_filename with
      | none => (fs1, Except.error Err.notFound)
      | some bytes => (putFile fs1 st.config_file bytes, Except.ok ())

/-- One record returned by `list_backups`: the filename and its embedded
epoch-millisecond timestamp.  (On success the source also returns a
`date` string, `datetime.fromtimestamp(timestamp / 1000).isoformat()` —
a pure function of `timestamp`, so it carries no extra information; its
*error behaviour*, however, matters and is modelled by
`fromtimestampOutcome` below.) -/
structure BackupRecord where
  filename : String
  timestamp : Int
deriving DecidableEq, Repr

/-- Whether a filename matches the glob `config.backup.*.json`
(`*` may match the empty string and may span dots). -/
def matchesBackupGlob (name : String) : Bool :=
  strStartsWith name "config.backup." && strEndsWith name ".json" &&
    decide ("config.backup.".length + ".json".length ≤ name.length)

/-- What `datetime.fromtimestamp(timestamp / 1000)` does for a parsed
timestamp: succeed, raise `ValueError` (caught by the source's
`except ValueError`, so the file is skipped), or raise an
`OverflowError`/`OSError` that nothing catches. -/
inductive DateOutcome where
  | ok
  | valueError
  | uncaught
deriving DecidableEq, Repr

/-- Smallest epoch-millisecond timestamp `fromtimestamp(ts / 1000)`
converts successfully on the reference platform (CPython 3.11, 64-bit
Linux/glibc, clock in UTC; measured by bisection). -/
def fromtsOkMin : Int := -62135510400000

/-- Largest successfully converted epoch-millisecond timestamp
(`9999-12-31T23:59:59.998…`; beyond it the year leaves `1..9999` and
`datetime` raises `ValueError`). -/
def fromtsOkMax : Int := 253402300799999

/-- Most negative epoch-millisecond timestamp for which the platform
`localtime` still delivers a (then out-of-range) year, so the failure is
a caught `ValueError`; below it the conversion raises an uncaught
`OSError`/`OverflowError`.  Measured by bisection on the reference
platform; no claim depends on the exact edge. -/
def fromtsValueErrMin : Int := -67768040609740804000

/-- Most positive epoch-millisecond timestamp still failing with a
caught `ValueError` (e.g. `3 * 10^14` ms → "year 11476 is out of
range"); above it the conversion raises an uncaught
`OSError`/`OverflowError` (e.g. `10^22` ms → "timestamp out of range for
platform time_t").  Measured by bisection; no claim depends on the exact
edge. -/
def fromtsValueErrMax : Int := 67768036191676795999

/-- Classify `datetime.fromtimestamp(ts / 1000)` for an integer
millisecond timestamp `ts`. -/
def fromtimestampOutcome (ts : Int) : DateOutcome :=
  if fromtsOkMin ≤ ts ∧ ts ≤ fromtsOkMax then DateOutcome.ok
  else if fromtsValueErrMin ≤ ts ∧ ts ≤ fromtsValueErrMax then
    DateOutcome.valueError
  else DateOutcome.uncaught

/-- What the `list_backups` loop does with one directory entry. -/
inductive StepResult where
  | skip
  | keep (r : BackupRecord)
  | raise (e : Err)
deriving Repr

/-- One iteration of the `list_backups` loop (src/server.py:227-236) on a
filename: files not matching the glob are never visited; inside the
`try`, `int(file.stem.split(".")[-1])` raising `ValueError` means skip;
then `datetime.fromtimestamp(timestamp / 1000)` either succeeds (the
record is appended), raises a caught `ValueError` (skip), or raises an
uncaught `OverflowError`/`OSError` that aborts the whole call. -/
def backupRecordStep (name : String) : StepResult :=
  if matchesBackupGlob name then
    match pyInt? (lastDotSegment (pathStem name.data)) with
    | none => StepResult.skip
    | some ts =>
        match fromtimestampOutcome ts with
        | DateOutcome.ok => StepResult.keep { filename := name, timestamp := ts }
        | DateOutcome.valueError => StepResult.skip
        | DateOutcome.uncaught => StepResult.raise Err.overflowError
  else StepResult.skip

/-- The record an entry contributes, when it contributes one. -/
def stepKeep? (name : String) : Option BackupRecord :=
  match backupRecordStep name with
  | StepResult.keep r => some r
  | _ => none

/-- Whether the entry makes the whole call raise. -/
def stepRaises (name : String) : Bool :=
  match backupRecordStep name with
  | StepResult.raise _ => true
  | _ => false

/-- The records the loop keeps, in enumeration order (meaningful when no
entry raises). -/
def backupCandidates (fs : FS) : List BackupRecord :=
  fs.filterMap (fun e => stepKeep? e.1)

/-- Run the `list_backups` loop over the directory: an entry whose date
derivation raises an uncaught error aborts the call with that error. -/
def collectBackups : FS → Except Err (List BackupRecord)
  | [] => Except.ok []
  | e :: rest =>
      match backupRecordStep e.1 with
      | StepResult.skip => collectBackups rest
      | StepResult.keep r => (collectBackups rest).map (fun l => r :: l)
      | StepResult.raise err => Except.error err

/-- Insert a record into a list already sorted by non-increasing
timestamp, after any earlier record of equal timestamp (stability). -/
def insertDesc (r : BackupRecord) : List BackupRecord → List BackupRecord
  | [] => [r]
  | x :: xs =>
      if x.timestamp ≤ r.timestamp then r :: x :: xs else x :: insertDesc r xs

/-- Stable sort by non-increasing timestamp — the result of Python
`sorted(backups, key=lambda x: x["timestamp"], reverse=True)`. -/
def sortDescTimestamp : List BackupRecord → List BackupRecord
  | [] => []
  | r :: rest => insertDesc r (sortDescTimestamp rest)

/-- `FileConfigStorage.list_backups` (src/server.py:224-238): glob
`config.backup.*.json`; for each match, inside a `try` catching only
`ValueError`, parse the embedded timestamp and derive the ISO date from
it; skip the file on `ValueError`, propagate any
`OverflowError`/`OSError`; finally sort by timestamp descending. -/
def FileConfigStorage.list_backups (fs : FS) : Except Err (List BackupRecord) :=
  (collectBackups fs).map sortDescTimestamp

/-- A `pathlib.PurePosixPath` as the source builds them: an absolute flag
and the path segments.  pathlib drops empty segments and `"."` segments
but keeps `".."` segments verbatim. -/
structure PyPath where
  absolute : Bool
  segments : List String
deriving DecidableEq, Repr

/-- `pathlib.Path(s)` for a POSIX path string. -/
def parsePyPath (s : String) : PyPath :=
  { absolute := strStartsWith s "/"
    segments :=
      (splitOnChar '/' s.data).filterMap (fun seg =>
        if seg.isEmpty || seg == ['.'] then none else some (String.mk seg)) }

/-- pathlib's `/` operator: an absolute right operand replaces the left
operand entirely; otherwise the segments are appended. -/
def PyPath.join (p q : PyPath) : PyPath :=
  if q.absolute then q else ⟨p.absolute, p.segments ++ q.segments⟩

/-- Resolve `".."` segments the way the operating system does on lookup:
each `".."` removes the preceding segment (and is a no-op at the root). -/
def normalizeSegs (segs : List String) : List String :=
  segs.foldl (fun acc s => if s = ".." then acc.dropLast else acc ++ [s]) []

/-- The filesystem as the theme manager sees it: the absolute working
directory of the server process, and the set of absolute normalized paths
(files and directories) that exist. -/
structure ThemeFS where
  cwd : List String
  existing : List (List String)

/-- Absolute normalized form of a path: relative paths are taken against
the working directory, then `".."` segments are resolved. -/
def ThemeFS.resolve (fs : ThemeFS) (p : PyPath) : List String :=
  normalizeSegs (if p.absolute then p.segments else fs.cwd ++ p.segments)

/-- `Path.exists()`: the OS resolves the path (following `".."`) and
checks it against what is on disk. -/
def ThemeFS.pathExists (fs : ThemeFS) (p : PyPath) : Bool :=
  fs.existing.contains (fs.resolve p)

/-- `ThemeManager` (src/server.py:264-313): holds the themes root
directory, `"themes"` by default. -/
structure ThemeManager where
  themes_dir : String

/-- The manager as instantiated by the source: `ThemeManager()` with
`themes_dir = "themes"`. -/
def defaultThemeManager : ThemeManager := ⟨"themes"⟩

/-- `ThemeManager.get_theme_file_path` (src/server.py:301-313): joins
`themes_dir / theme_id`, 404 if that directory does not exist; joins the
caller-supplied `filename` onto it, 404 if the joined path does not
exist; otherwise returns the joined path unchanged.  The source performs
no containment or canonicalization check on `filename`. -/
def ThemeManager.get_theme_file_path (tm : ThemeManager) (fs : ThemeFS)
    (theme_id : String) (filename : String) : Except Err PyPath :=
  let theme_dir := (parsePyPath tm.themes_dir).join (parsePyPath theme_id)
  if fs.pathExists theme_dir = false then
    Except.error Err.notFound
  else
    let file_path := theme_dir.join (parsePyPath filename)
    if fs.pathExists file_path = false then
      Except.error Err.notFound
    else
      Except.ok file_path

/-- One entry of `themes_dir.iterdir()`: its name, whether it is a
directory, and — when a `theme.json` manifest file is present in it — the
manifest's JSON value.  (Manifest files on disk are taken to hold valid
JSON, matching the modelling convention for `Content.json`.) -/
structure ThemeDirEntry where
  name : String
  isDir : Bool
  manifest : Option Json

/-- `ThemeManager.list_themes` (src/server.py:274-289): `[]` when the
themes root does not exist (`root = none`); otherwise, for each directory
entry that has a `theme.json`, parse and include it, in enumeration
order; entries without a manifest, and non-directory entries, are
skipped. -/
def ThemeManager.list_themes (root : Option (List ThemeDirEntry)) : List Json :=
  match root with
  | none => []
  | some entries =>
      entries.filterMap (fun e => if e.isDir then e.manifest else none)

end EverAfter

namespace EverAfter

/-! ### Helper lemmas about the directory model -/

/-- Reading back the file just written. -/
theorem findFile_putFile_self (fs : FS) (n : String) (c : Content) :
    findFile (putFile fs n c) n = some c := by
  induction fs with
  | nil => simp [putFile, findFile]
  | cons e rest ih =>
      obtain ⟨n0, c0⟩ := e
      by_cases h : n = n0
      · subst h; simp [putFile, findFile]
      · simp [putFile, findFile, h, ih]

/-- Writing one file leaves every other file unchanged. -/
theorem findFile_putFile_ne (fs : FS) (n : String) (c : Content) (m : String)
    (h : m ≠ n) : findFile (putFile fs n c) m = findFile fs m := by
  induction fs with
  | nil => simp [putFile, findFile, h]
  | cons e rest ih =>
      obtain ⟨n0, c0⟩ := e
      by_cases h0 : n = n0
      · subst h0; simp [putFile, findFile, h]
      · by_cases hm : m = n0
        · subst hm; simp [putFile, findFile, h0]
        · simp [putFile, findFile, h0, hm, ih]

/-- Overwriting a file twice is the same as writing it once. -/
theorem putFile_putFile (fs : FS) (n : String) (c c' : Content) :
    putFile (putFile fs n c) n c' = putFile fs n c' := by
  induction fs with
  | nil => simp [putFile]
  | cons e rest ih =>
      obtain ⟨n0, c0⟩ := e
      by_cases h : n = n0
      · subst h; simp [putFile]
      · simp [putFile, h, ih]

/-- Model coherence: the final state of the step sequence `saveStates` is
the state `save` produces. -/
theorem save_fst_eq_saveStates_last (st : FileConfigStorage) (fs : FS)
    (config : Json) (ts : Nat) (e : String) :
    (st.save fs config ts e).1 = (st.saveStates fs config ts e).getLastD fs := by
  cases h : findFile fs st.config_file <;>
    simp [FileConfigStorage.save, FileConfigStorage.saveStates, h, putFile_putFile]

/-- Every backup name the store generates passes the restore check:
`backupFilename ts` starts with `config.backup.`. -/
theorem strStartsWith_backupFilename (ts : Nat) :
    strStartsWith (backupFilename ts) "config.backup." = true := by
  have h : backupFilename ts = "config.backup." ++ (toString ts ++ ".json") := by
    simp [backupFilename, String.append_assoc]
  rw [strStartsWith, h, String.data_append]
  simp [List.isPrefixOf_iff_prefix]

/-- Membership in an `insertDesc` result. -/
theorem mem_insertDesc (r b : BackupRecord) (l : List BackupRecord) :
    b ∈ insertDesc r l ↔ b = r ∨ b ∈ l := by
  induction l with
  | nil => simp [insertDesc]
  | cons x xs ih =>
      by_cases hc : x.timestamp ≤ r.timestamp
      · simp [insertDesc, hc]
      · simp [insertDesc, hc, ih]
        tauto

/-- `insertDesc` only adds the inserted record. -/
theorem insertDesc_perm (r : BackupRecord) (l : List BackupRecord) :
    (insertDesc r l).Perm (r :: l) := by
  induction l with
  | nil => simp [insertDesc]
  | cons x xs ih =>
      by_cases hc : x.timestamp ≤ r.timestamp
      · simp [insertDesc, hc]
      · simp only [insertDesc, if_neg hc]
        exact (ih.cons x).trans (List.Perm.swap r x xs)

/-- `insertDesc` preserves sortedness by non-increasing timestamp. -/
theorem pairwise_insertDesc (r : BackupRecord) (l : List BackupRecord)
    (h : l.Pairwise (fun a b => b.timestamp ≤ a.timestamp)) :
    (insertDesc r l).Pairwise (fun a b => b.timestamp ≤ a.timestamp) := by
  induction l with
  | nil => simp [insertDesc]
  | cons x xs ih =>
      rw [List.pairwise_cons] at h
      by_cases hc : x.timestamp ≤ r.timestamp
      · rw [insertDesc, if_pos hc, List.pairwise_cons]
        refine ⟨?_, List.pairwise_cons.mpr h⟩
        intro b hb
        rcases List.mem_cons.mp hb with hb | hb
        · exact hb ▸ hc
        · exact le_trans (h.1 b hb) hc
      · rw [insertDesc, if_neg hc, List.pairwise_cons]
        refine ⟨?_, ih h.2⟩
        intro b hb
        rcases (mem_insertDesc r b xs).mp hb with hb | hb
        · exact hb ▸ le_of_not_le hc
        · exact h.1 b hb

/-- The stable descending sort returns a permutation of its input. -/
theorem sortDescTimestamp_perm (l : List BackupRecord) :
    (sortDescTimestamp l).Perm l := by
  induction l with
  | nil => simp [sortDescTimestamp]
  | cons r rest ih =>
      exact (insertDesc_perm r _).trans (ih.cons r)

/-- The stable descending sort is sorted by non-increasing timestamp. -/
theorem sortDescTimestamp_sorted (l : List BackupRecord) :
    (sortDescTimestamp l).Pairwise (fun a b => b.timestamp ≤ a.timestamp) := by
  induction l with
  | nil => simp [sortDescTimestamp]
  | cons r rest ih => exact pairwise_insertDesc r _ ih

/-- When no entry makes the date derivation raise an uncaught error, the
loop completes and returns exactly the kept records. -/
theorem collectBackups_ok (fs : FS)
    (h : ∀ e ∈ fs, stepRaises e.1 = false) :
    collectBackups fs = Except.ok (backupCandidates fs) := by
  induction fs with
  | nil => rfl
  | cons e rest ih =>
      have he : stepRaises e.1 = false := h e (List.mem_cons_self e rest)
      have hr : ∀ x ∈ rest, stepRaises x.1 = false :=
        fun x hx => h x (List.mem_cons_of_mem e hx)
      cases hs : backupRecordStep e.1 with
      | skip =>
          simp [collectBackups, backupCandidates, stepKeep?, hs,
            List.filterMap_cons, ih hr]
      | keep r =>
          simp [collectBackups, backupCandidates, stepKeep?, hs,
            List.filterMap_cons, ih hr, Except.map]
      | raise err => simp [stepRaises, hs] at he

/-- A kept record really came out of the loop body's success branch. -/
theorem stepKeep?_keep (name : String) (r : BackupRecord)
    (h : stepKeep? name = some r) :
    backupRecordStep name = StepResult.keep r := by
  cases hs : backupRecordStep name with
  | skip => simp [stepKeep?, hs] at h
  | keep r0 =>
      simp [stepKeep?, hs] at h
      rw [h]
  | raise err => simp [stepKeep?, hs] at h

/-- What the success branch guarantees about a kept record: its filename
matched the glob, its timestamp is the parsed one, and the date
derivation succeeded on it. -/
theorem backupRecordStep_keep (name : String) (r : BackupRecord)
    (h : backupRecordStep name = StepResult.keep r) :
    r.filename = name ∧ matchesBackupGlob name = true ∧
    pyInt? (lastDotSegment (pathStem name.data)) = some r.timestamp ∧
    fromtimestampOutcome r.timestamp = DateOutcome.ok := by
  unfold backupRecordStep at h
  by_cases hm : matchesBackupGlob name = true
  · rw [if_pos hm] at h
    cases hp : pyInt? (lastDotSegment (pathStem name.data)) with
    | none =>
        simp only [hp] at h
        cases h
    | some ts =>
        simp only [hp] at h
        cases ho : fromtimestampOutcome ts with
        | ok =>
            simp only [ho] at h
            cases h
            exact ⟨rfl, hm, rfl, ho⟩
        | valueError =>
            simp only [ho] at h
            cases h
        | uncaught =>
            simp only [ho] at h
            cases h
  · rw [if_neg hm] at h
    cases h

/-- A file whose embedded timestamp fails to parse is always skipped —
in particular it can never make the call raise. -/
theorem stepRaises_of_unparsable (name : String)
    (h : pyInt? (lastDotSegment (pathStem name.data)) = none) :
    stepRaises name = false := by
  unfold stepRaises backupRecordStep
  by_cases hm : matchesBackupGlob name = true
  · rw [if_pos hm, h]
  · rw [if_neg hm]

/-! ### The claims -/

/-- Claim C8: round-trip — after `save(D)` a subsequent `get()` returns a
document equal to `D`, for every store, prior directory state, document,
timestamp and `event_id`. -/
theorem save_get_roundtrip (st : FileConfigStorage) (fs : FS) (doc : Json)
    (ts : Nat) (e : String) :
    st.get (st.save fs doc ts e).1 = Except.ok doc := by
  cases h : findFile fs st.config_file <;>
    simp [FileConfigStorage.save, FileConfigStorage.get, h, findFile_putFile_self]

/-- Claim C4: when no prior current document exists, `save(doc)` creates
no backup artifact (every file other than the current document is exactly
as before; in particular the file named by the returned backup filename is
untouched, so the returned name refers to no created backup) and still
succeeds in writing `doc` as the new current document. -/
theorem save_without_prior_doc (st : FileConfigStorage) (fs : FS) (doc : Json)
    (ts : Nat) (e : String)
    (hnone : findFile fs st.config_file = none)
    (hne : st.config_file ≠ backupFilename ts) :
    findFile (st.save fs doc ts e).1 st.config_file = some (Content.json doc) ∧
    (st.save fs doc ts e).2 = backupFilename ts ∧
    (∀ name, name ≠ st.config_file →
      findFile (st.save fs doc ts e).1 name = findFile fs name) ∧
    findFile (st.save fs doc ts e).1 (backupFilename ts)
      = findFile fs (backupFilename ts) := by
  refine ⟨?_, rfl, ?_, ?_⟩
  · simp [FileConfigStorage.save, hnone, findFile_putFile_self]
  · intro name hname
    simp [FileConfigStorage.save, hnone, findFile_putFile_ne _ _ _ _ hname]
  · simp [FileConfigStorage.save, hnone, findFile_putFile_ne _ _ _ _ (Ne.symm hne)]

/-- Claim C4 witness: saving `{"title": "A"}`-like data into an empty
directory writes it, adds no other file, and the returned backup name
names no file. -/
theorem save_without_prior_doc_witness :
    findFile ([] : FS) defaultStore.config_file = none ∧
    defaultStore.config_file ≠ backupFilename 5 ∧
    findFile (defaultStore.save [] (Json.str "A") 5 "default").1
        defaultStore.config_file = some (Content.json (Json.str "A")) ∧
    findFile (defaultStore.save [] (Json.str "A") 5 "default").1
        (backupFilename 5) = findFile ([] : FS) (backupFilename 5) := by
  have h := save_without_prior_doc defaultStore [] (Json.str "A") 5 "default" rfl (by decide)
  exact ⟨rfl, by decide, h.1, h.2.2.2⟩

/-- Claim C5: with current document `D1` on disk and a fresh backup name,
`save(D2)` creates exactly one new backup artifact, whose content equals
`D1`; writes `D2` as the new current document; and returns that backup's
filename (files other than the current document and the new backup are
untouched). -/
theorem save_backs_up_prior_doc (st : FileConfigStorage) (fs : FS)
    (d1 d2 : Json) (ts : Nat) (e : String)
    (hcur : findFile fs st.config_file = some (Content.json d1))
    (hne : st.config_file ≠ backupFilename ts) :
    (st.save fs d2 ts e).2 = backupFilename ts ∧
    findFile (st.save fs d2 ts e).1 (backupFilename ts)
      = some (Content.json d1) ∧
    findFile (st.save fs d2 ts e).1 st.config_file = some (Content.json d2) ∧
    (∀ name, name ≠ st.config_file → name ≠ backupFilename ts →
      findFile (st.save fs d2 ts e).1 name = findFile fs name) := by
  have hsave : (st.save fs d2 ts e).1
      = putFile (putFile fs (backupFilename ts) (Content.json d1))
          st.config_file (Content.json d2) := by
    simp [FileConfigStorage.save, hcur]
  refine ⟨rfl, ?_, ?_, ?_⟩
  · rw [hsave, findFile_putFile_ne _ _ _ _ (Ne.symm hne), findFile_putFile_self]
  · rw [hsave, findFile_putFile_self]
  · intro name h1 h2
    rw [hsave, findFile_putFile_ne _ _ _ _ h1, findFile_putFile_ne _ _ _ _ h2]

/-- Claim C5 witness: overwriting `"A"` with `"B"` at timestamp 2 backs
`"A"` up under `config.backup.2.json` and touches nothing else. -/
theorem save_backs_up_prior_doc_witness :
    findFile [("config.json", Content.json (Json.str "A"))]
        defaultStore.config_file = some (Content.json (Json.str "A")) ∧
    defaultStore.config_file ≠ backupFilename 2 ∧
    (defaultStore.save [("config.json", Content.json (Json.str "A"))]
        (Json.str "B") 2 "default").2 = backupFilename 2 ∧
    findFile (defaultStore.save [("config.json", Content.json (Json.str "A"))]
        (Json.str "B") 2 "default").1 (backupFilename 2)
      = some (Content.json (Json.str "A")) ∧
    findFile (defaultStore.save [("config.json", Content.json (Json.str "A"))]
        (Json.str "B") 2 "default").1 defaultStore.config_file
      = some (Content.json (Json.str "B")) := by
  have h := save_backs_up_prior_doc defaultStore
    [("config.json", Content.json (Json.str "A"))] (Json.str "A") (Json.str "B")
    2 "default" rfl (by decide)
  exact ⟨rfl, by decide, h.1, h.2.1, h.2.2.1⟩

/-- Claim C2: `restore` rejects any filename not bearing the store's own
`config.backup.` naming prefix with `InvalidArgument`, returning the
directory (hence the current document) unchanged; a prefixed filename
whose backup file is absent on disk fails with `NotFound`, also leaving
the directory unchanged. -/
theorem restore_rejects_invalid_filenames (st : FileConfigStorage) (fs : FS)
    (filename : String) (ts : Nat) :
    (strStartsWith filename "config.backup." = false →
      st.restore fs filename ts = (fs, Except.error Err.invalidArgument)) ∧
    (strStartsWith filename "config.backup." = true →
      findFile fs filename = none →
      st.restore fs filename ts = (fs, Except.error Err.notFound)) := by
  constructor
  · intro h
    simp [FileConfigStorage.restore, h]
  · intro h1 h2
    simp [FileConfigStorage.restore, h1, h2]

/-- Claim C2 witness: `restore("../../etc/passwd")` and
`restore("notaconfigbackup.json")` fail with `InvalidArgument`, and a
well-formed name whose file is absent fails with `NotFound`; the
directory is unchanged each time. -/
theorem restore_rejects_invalid_filenames_witness :
    defaultStore.restore [] "../../etc/passwd" 9
      = ([], Except.error Err.invalidArgument) ∧
    defaultStore.restore [] "notaconfigbackup.json" 9
      = ([], Except.error Err.invalidArgument) ∧
    defaultStore.restore [] "config.backup.7.json" 9
      = ([], Except.error Err.notFound) := by
  refine ⟨(restore_rejects_invalid_filenames defaultStore [] "../../etc/passwd" 9).1
      (by decide),
    (restore_rejects_invalid_filenames defaultStore [] "notaconfigbackup.json" 9).1
      (by decide),
    (restore_rejects_invalid_filenames defaultStore [] "config.backup.7.json" 9).2
      (by decide) rfl⟩

/-- Claim C10 (implicit): `restore` requires a current document.  When the
current document file is absent, `restore` fails with `NotFound` even
though the filename has the valid prefix and the named backup exists on
disk, and the directory comes back unchanged — the backup is not restored
and no current document is created, because the `self.get()` call taken
for the pre-restore snapshot raises first. -/
theorem restore_requires_current_doc (st : FileConfigStorage) (fs : FS)
    (filename : String) (ts : Nat)
    (hpre : strStartsWith filename "config.backup." = true)
    (hex : (findFile fs filename).isSome = true)
    (hcur : findFile fs st.config_file = none) :
    st.restore fs filename ts = (fs, Except.error Err.notFound) := by
  obtain ⟨c, hc⟩ := Option.isSome_iff_exists.mp hex
  have hget : st.get fs = Except.error Err.notFound := by
    simp [FileConfigStorage.get, hcur]
  simp [FileConfigStorage.restore, hpre, hc, hget]

/-- Claim C10 witness: with only `config.backup.7.json` on disk (no
current document), restoring it fails with `NotFound` and changes
nothing. -/
theorem restore_requires_current_doc_witness :
    strStartsWith "config.backup.7.json" "config.backup." = true ∧
    (findFile [("config.backup.7.json", Content.json Json.null)]
        "config.backup.7.json").isSome = true ∧
    findFile [("config.backup.7.json", Content.json Json.null)]
        defaultStore.config_file = none ∧
    defaultStore.restore [("config.backup.7.json", Content.json Json.null)]
        "config.backup.7.json" 9
      = ([("config.backup.7.json", Content.json Json.null)],
         Except.error Err.notFound) := by
  refine ⟨by decide, rfl, rfl, ?_⟩
  exact restore_requires_current_doc defaultStore
    [("config.backup.7.json", Content.json Json.null)]
    "config.backup.7.json" 9 (by decide) rfl rfl

end EverAfter
namespace EverAfter

/-- Claim C3 counterexample: in the concrete run `save("B")` over an
existing current document `"A"`, the middle directory state of the save
(`saveStates[1]`: right after `open(config_file, "w")` truncated the
file, before `json.dump` finished) has the current file present with
empty — invalid — content, and a reader (`get`) at that moment fails
with a parse error.  The write is observably not all-or-nothing, and a
save failing at that moment has not left the prior current document
intact on the current file. -/
theorem save_midstate_invalid_doc :
    findFile ((defaultStore.saveStates
        [("config.json", Content.json (Json.str "A"))] (Json.str "B") 5
        "default").getD 1 []) "config.json" = some (Content.invalid "") ∧
    defaultStore.get ((defaultStore.saveStates
        [("config.json", Content.json (Json.str "A"))] (Json.str "B") 5
        "default").getD 1 []) = Except.error Err.parseError :=
  ⟨rfl, rfl⟩

/-- Claim C3 (amended): writes of the current document are not
all-or-nothing.  `save` truncates the current file (`open(.., "w")`) and
then writes the new bytes in place — there is no atomic rename — so among
the directory states a save passes through there is one in which the
current file is present but empty (not valid JSON) and a reader at that
moment observes a parse failure; a save interrupted there has lost the
prior document from the current file, which survives only in the backup
taken just before.  A save that completes leaves the current document
valid and equal to the new document. -/
theorem save_truncate_then_write (st : FileConfigStorage) (fs : FS)
    (d1 d2 : Json) (ts : Nat) (e : String)
    (hcur : findFile fs st.config_file = some (Content.json d1))
    (hne : st.config_file ≠ backupFilename ts) :
    ∃ mid ∈ st.saveStates fs d2 ts e,
      findFile mid st.config_file = some (Content.invalid "") ∧
      st.get mid = Except.error Err.parseError ∧
      findFile mid (backupFilename ts) = some (Content.json d1) ∧
      findFile (st.save fs d2 ts e).1 st.config_file
        = some (Content.json d2) := by
  refine ⟨putFile (putFile fs (backupFilename ts) (Content.json d1))
      st.config_file (Content.invalid ""), ?_, ?_, ?_, ?_, ?_⟩
  · simp [FileConfigStorage.saveStates, hcur]
  · exact findFile_putFile_self _ _ _
  · simp [FileConfigStorage.get, findFile_putFile_self]
  · rw [findFile_putFile_ne _ _ _ _ (Ne.symm hne), findFile_putFile_self]
  · simp [FileConfigStorage.save, hcur, findFile_putFile_self]

/-- Claim C3 witness: the amended statement at the concrete run of
`save_midstate_invalid_doc`. -/
theorem save_truncate_then_write_witness :
    findFile [("config.json", Content.json (Json.str "A"))]
        defaultStore.config_file = some (Content.json (Json.str "A")) ∧
    defaultStore.config_file ≠ backupFilename 5 ∧
    (∃ mid ∈ defaultStore.saveStates
        [("config.json", Content.json (Json.str "A"))] (Json.str "B") 5
        "default",
      findFile mid defaultStore.config_file = some (Content.invalid "") ∧
      defaultStore.get mid = Except.error Err.parseError ∧
      findFile mid (backupFilename 5) = some (Content.json (Json.str "A")) ∧
      findFile (defaultStore.save
          [("config.json", Content.json (Json.str "A"))] (Json.str "B") 5
          "default").1 defaultStore.config_file
        = some (Content.json (Json.str "B"))) :=
  ⟨rfl, by decide,
   save_truncate_then_write defaultStore
     [("config.json", Content.json (Json.str "A"))] (Json.str "A")
     (Json.str "B") 5 "default" rfl (by decide)⟩

/-- Claim C7 counterexample, refuting it in three independent ways over
concrete artifact sets.  (1) Ties: `config.backup.5.json` and
`config.backup.x.5.json` carry the same embedded timestamp 5 (the glob
`*` spans dots), so with `config.backup.7.json` present and the
unparsable `config.backup.oops.json` skipped, the call returns
timestamps `[7, 5, 5]` — descending but not *strictly* descending.
(2) A file whose timestamp parses to `3 * 10^14` ms is nevertheless not
returned: `datetime.fromtimestamp` raises a (caught) `ValueError` for
it, so "returns the remaining records" fails for parse-succeeding names.
(3) A file whose timestamp parses to `10^22` ms makes the whole call
raise an uncaught `OverflowError`, so the call is not total either. -/
theorem list_backups_tie_not_strict :
    FileConfigStorage.list_backups
        [("config.backup.5.json", Content.json Json.null),
         ("config.backup.x.5.json", Content.json Json.null),
         ("config.backup.7.json", Content.json Json.null),
         ("config.backup.oops.json", Content.json Json.null)]
      = Except.ok [⟨"config.backup.7.json", 7⟩,
                   ⟨"config.backup.5.json", 5⟩,
                   ⟨"config.backup.x.5.json", 5⟩] ∧
    ¬ List.Pairwise (fun a b => b.timestamp < a.timestamp)
        [(⟨"config.backup.7.json", 7⟩ : BackupRecord),
         ⟨"config.backup.5.json", 5⟩,
         ⟨"config.backup.x.5.json", 5⟩] ∧
    pyInt? (lastDotSegment (pathStem
        "config.backup.300000000000000.json".data))
      = some 300000000000000 ∧
    FileConfigStorage.list_backups
        [("config.backup.300000000000000.json", Content.json Json.null)]
      = Except.ok [] ∧
    FileConfigStorage.list_backups
        [("config.backup.10000000000000000000000.json",
          Content.json Json.null)]
      = Except.error Err.overflowError := by
  refine ⟨rfl, by decide, rfl, rfl, rfl⟩

/-- Claim C7 (amended): a file whose embedded timestamp fails to parse
never raises — it is skipped; and on every directory in which no parsed
timestamp falls in the far range where the date derivation raises an
uncaught `OverflowError`/`OSError` (`stepRaises`), the call returns
exactly the kept records — glob-matched files whose timestamp parses
*and* whose derived date is representable; parse-succeeding files with
an out-of-range date are skipped by the caught `ValueError` — sorted by
non-increasing timestamp: descending, but not strictly descending when
distinct filenames carry equal embedded timestamps. -/
theorem list_backups_sorted_desc (fs : FS)
    (hsafe : ∀ e ∈ fs, stepRaises e.1 = false) :
    FileConfigStorage.list_backups fs
      = Except.ok (sortDescTimestamp (backupCandidates fs)) ∧
    (sortDescTimestamp (backupCandidates fs)).Pairwise
      (fun a b => b.timestamp ≤ a.timestamp) ∧
    (sortDescTimestamp (backupCandidates fs)).Perm (backupCandidates fs) ∧
    (∀ r ∈ sortDescTimestamp (backupCandidates fs),
      matchesBackupGlob r.filename = true ∧
      pyInt? (lastDotSegment (pathStem r.filename.data))
        = some r.timestamp ∧
      fromtimestampOutcome r.timestamp = DateOutcome.ok) ∧
    (∀ name, pyInt? (lastDotSegment (pathStem name.data)) = none →
      stepRaises name = false) := by
  refine ⟨?_, sortDescTimestamp_sorted _, sortDescTimestamp_perm _, ?_,
    fun name h => stepRaises_of_unparsable name h⟩
  · rw [FileConfigStorage.list_backups, collectBackups_ok fs hsafe]
    rfl
  · intro r hr
    have hr' : r ∈ backupCandidates fs :=
      (sortDescTimestamp_perm _).mem_iff.mp hr
    obtain ⟨e, he, hfe⟩ := List.mem_filterMap.mp hr'
    have hk := backupRecordStep_keep e.1 r (stepKeep?_keep e.1 r hfe)
    exact ⟨hk.1 ▸ hk.2.1, hk.1 ▸ hk.2.2.1, hk.2.2.2⟩

end EverAfter
namespace EverAfter

/-- Claim C9: for every state of the themes root, `list_themes` returns
exactly the manifests of the immediate subdirectories that contain a
manifest file — a manifest value is returned iff some directory entry
carries it — and an entry without a manifest (or a non-directory entry)
is excluded without making the call fail: removing such an entry from
anywhere in the enumeration leaves the result unchanged, and the call is
a total function, so its presence cannot make the call raise. -/
theorem list_themes_manifest_characterization :
    (∀ (entries : List ThemeDirEntry) (m : Json),
      m ∈ ThemeManager.list_themes (some entries) ↔
        ∃ e ∈ entries, e.isDir = true ∧ e.manifest = some m) ∧
    (∀ (l1 l2 : List ThemeDirEntry) (nm : String),
      ThemeManager.list_themes (some (l1 ++ ⟨nm, true, none⟩ :: l2))
        = ThemeManager.list_themes (some (l1 ++ l2))) := by
  constructor
  · intro entries m
    simp only [ThemeManager.list_themes, List.mem_filterMap]
    constructor
    · rintro ⟨e, he, hfe⟩
      by_cases hd : e.isDir = true
      · exact ⟨e, he, hd, by rwa [if_pos hd] at hfe⟩
      · rw [if_neg hd] at hfe
        cases hfe
    · rintro ⟨e, he, hd, hm⟩
      exact ⟨e, he, by rw [if_pos hd, hm]⟩
  · intro l1 l2 nm
    simp [ThemeManager.list_themes, List.filterMap_append, List.filterMap_cons]

/-- Claim C1 is false of the code (code bug): `get_theme_file_path`
performs no containment or canonicalization check on the requested
relative path.  Concretely, with the server's working directory `/app`,
the themes root `/app/themes`, theme `beach` present, and a file
`/app/server_secret` on disk, `get_theme_file_path("beach",
"../../server_secret")` succeeds and returns
`themes/beach/../../server_secret`, which resolves to
`/app/server_secret` — outside `themes/beach/` — instead of failing with
`NotFound`/`Forbidden` as the claim requires. -/
theorem get_theme_file_path_escapes_theme_dir :
    defaultThemeManager.get_theme_file_path
        ⟨["app"], [["app"], ["app", "themes"], ["app", "themes", "beach"],
                   ["app", "server_secret"]]⟩
        "beach" "../../server_secret"
      = Except.ok ⟨false, ["themes", "beach", "..", "..", "server_secret"]⟩ ∧
    ThemeFS.resolve
        ⟨["app"], [["app"], ["app", "themes"], ["app", "themes", "beach"],
                   ["app", "server_secret"]]⟩
        ⟨false, ["themes", "beach", "..", "..", "server_secret"]⟩
      = ["app", "server_secret"] ∧
    List.isPrefixOf ["app", "themes", "beach"] ["app", "server_secret"]
      = false :=
  ⟨rfl, rfl, by decide⟩

end EverAfter
namespace EverAfter

/-- Claim C6 counterexample: in the concrete run `save("A")` at t=1,
`save("B")` at t=2, `restore("config.backup.2.json")` at t=3, the restore
succeeds and the pre-restore snapshot of `"B"` is stored as
`config.backup.3.json` — the ordinary backup naming scheme, identical to
the name an ordinary `save` at the same timestamp returns, and containing
no `pre-restore` marker anywhere in the filename.  The snapshot is not
"tagged distinctly" as the claim states: `save` ignores its `event_id`
argument entirely, so passing `"pre-restore"` changes nothing. -/
theorem restore_snapshot_not_tagged :
    defaultStore.restore
        [("config.json", Content.json (Json.str "B")),
         ("config.backup.2.json", Content.json (Json.str "A"))]
        "config.backup.2.json" 3
      = ([("config.json", Content.json (Json.str "A")),
          ("config.backup.2.json", Content.json (Json.str "A")),
          ("config.backup.3.json", Content.json (Json.str "B"))],
         Except.ok ()) ∧
    backupFilename 3 = "config.backup.3.json" ∧
    defaultStore.save
        [("config.json", Content.json (Json.str "B")),
         ("config.backup.2.json", Content.json (Json.str "A"))]
        (Json.str "B") 3 "pre-restore"
      = defaultStore.save
        [("config.json", Content.json (Json.str "B")),
         ("config.backup.2.json", Content.json (Json.str "A"))]
        (Json.str "B") 3 "default" ∧
    ¬ List.IsInfix "pre-restore".data "config.backup.3.json".data :=
  ⟨rfl, rfl, rfl, by decide⟩

/-- Claim C6 (amended): for any starting directory and documents, after
`save(D1)` at t1, `save(D2)` at t2 (returning `F`, the backup of `D1`)
and `restore(F)` at t3, the restore succeeds, `get()` returns `D1`, and a
further backup containing `D2` — the pre-restore snapshot — exists.  That
snapshot is however NOT tagged distinctly: the `"pre-restore"` marker is
passed as the `event_id` argument, which `FileConfigStorage.save`
ignores, so the snapshot lives under the ordinary
`config.backup.<t3>.json` name (`backupFilename ts3` below),
indistinguishable from a regular backup.  The hypotheses only demand
that the generated backup names collide neither with the current-document
name nor with each other. -/
theorem restore_reversibility (st : FileConfigStorage) (fs0 : FS)
    (d1 d2 : Json) (ts1 ts2 ts3 : Nat)
    (hc2 : st.config_file ≠ backupFilename ts2)
    (hc3 : st.config_file ≠ backupFilename ts3)
    (h23 : backupFilename ts2 ≠ backupFilename ts3) :
    (st.restore (st.save (st.save fs0 d1 ts1 "default").1 d2 ts2 "default").1
        (st.save (st.save fs0 d1 ts1 "default").1 d2 ts2 "default").2 ts3).2
      = Except.ok () ∧
    st.get (st.restore
        (st.save (st.save fs0 d1 ts1 "default").1 d2 ts2 "default").1
        (st.save (st.save fs0 d1 ts1 "default").1 d2 ts2 "default").2 ts3).1
      = Except.ok d1 ∧
    findFile (st.restore
        (st.save (st.save fs0 d1 ts1 "default").1 d2 ts2 "default").1
        (st.save (st.save fs0 d1 ts1 "default").1 d2 ts2 "default").2 ts3).1
        (backupFilename ts3)
      = some (Content.json d2) := by
  have hr2snd : (st.save (st.save fs0 d1 ts1 "default").1 d2 ts2 "default").2
      = backupFilename ts2 := rfl
  set fs1 := (st.save fs0 d1 ts1 "default").1 with hfs1def
  have hfs1cur : findFile fs1 st.config_file = some (Content.json d1) := by
    rw [hfs1def]
    cases h : findFile fs0 st.config_file <;>
      simp [FileConfigStorage.save, h, findFile_putFile_self]
  set fs2 := (st.save fs1 d2 ts2 "default").1 with hfs2def
  have hfs2eq : fs2
      = putFile (putFile fs1 (backupFilename ts2) (Content.json d1))
          st.config_file (Content.json d2) := by
    rw [hfs2def]
    simp [FileConfigStorage.save, hfs1cur]
  have hbk2 : findFile fs2 (backupFilename ts2) = some (Content.json d1) := by
    rw [hfs2eq, findFile_putFile_ne _ _ _ _ (Ne.symm hc2),
        findFile_putFile_self]
  have hcur2 : findFile fs2 st.config_file = some (Content.json d2) := by
    rw [hfs2eq, findFile_putFile_self]
  have hget2 : st.get fs2 = Except.ok d2 := by
    simp [FileConfigStorage.get, hcur2]
  have hsave3 : (st.save fs2 d2 ts3 "pre-restore").1
      = putFile (putFile fs2 (backupFilename ts3) (Content.json d2))
          st.config_file (Content.json d2) := by
    simp [FileConfigStorage.save, hcur2]
  have hbk2' : findFile (st.save fs2 d2 ts3 "pre-restore").1
      (backupFilename ts2) = some (Content.json d1) := by
    rw [hsave3, findFile_putFile_ne _ _ _ _ (Ne.symm hc2),
        findFile_putFile_ne _ _ _ _ h23, hbk2]
  have hrest : st.restore fs2 (backupFilename ts2) ts3
      = (putFile (st.save fs2 d2 ts3 "pre-restore").1 st.config_file
          (Content.json d1), Except.ok ()) := by
    simp [FileConfigStorage.restore, strStartsWith_backupFilename, hbk2,
      hget2, hbk2']
  rw [hr2snd, hrest]
  refine ⟨rfl, ?_, ?_⟩
  · simp [FileConfigStorage.get, findFile_putFile_self]
  · rw [findFile_putFile_ne _ _ _ _ (Ne.symm hc3), hsave3,
        findFile_putFile_ne _ _ _ _ (Ne.symm hc3), findFile_putFile_self]

/-- Claim C6 witness: the amended statement at the concrete run `fs0 = ∅`,
`D1 = "A"`, `D2 = "B"`, timestamps 1, 2, 3. -/
theorem restore_reversibility_witness :
    defaultStore.config_file ≠ backupFilename 2 ∧
    defaultStore.config_file ≠ backupFilename 3 ∧
    backupFilename 2 ≠ backupFilename 3 ∧
    ((defaultStore.restore
        (defaultStore.save (defaultStore.save [] (Json.str "A") 1 "default").1
          (Json.str "B") 2 "default").1
        (defaultStore.save (defaultStore.save [] (Json.str "A") 1 "default").1
          (Json.str "B") 2 "default").2 3).2 = Except.ok () ∧
     defaultStore.get (defaultStore.restore
        (defaultStore.save (defaultStore.save [] (Json.str "A") 1 "default").1
          (Json.str "B") 2 "default").1
        (defaultStore.save (defaultStore.save [] (Json.str "A") 1 "default").1
          (Json.str "B") 2 "default").2 3).1 = Except.ok (Json.str "A") ∧
     findFile (defaultStore.restore
        (defaultStore.save (defaultStore.save [] (Json.str "A") 1 "default").1
          (Json.str "B") 2 "default").1
        (defaultStore.save (defaultStore.save [] (Json.str "A") 1 "default").1
          (Json.str "B") 2 "default").2 3).1 (backupFilename 3)
       = some (Content.json (Json.str "B"))) :=
  ⟨by decide, by decide, by decide,
   restore_reversibility defaultStore [] (Json.str "A") (Json.str "B") 1 2 3
     (by decide) (by decide) (by decide)⟩

end EverAfter
namespace EverAfter

/-- Claim C7 witness: the amended statement evaluated on a concrete
artifact set whose entries all stay clear of the uncaught-error range,
its per-record clause instantiated at the head record. -/
theorem list_backups_sorted_desc_witness :
    (∀ e ∈ ([("config.backup.5.json", Content.json Json.null),
             ("config.backup.7.json", Content.json Json.null)] : FS),
      stepRaises e.1 = false) ∧
    FileConfigStorage.list_backups
        [("config.backup.5.json", Content.json Json.null),
         ("config.backup.7.json", Content.json Json.null)]
      = Except.ok (sortDescTimestamp (backupCandidates
          [("config.backup.5.json", Content.json Json.null),
           ("config.backup.7.json", Content.json Json.null)])) ∧
    (sortDescTimestamp (backupCandidates
        [("config.backup.5.json", Content.json Json.null),
         ("config.backup.7.json", Content.json Json.null)])).Pairwise
      (fun a b => b.timestamp ≤ a.timestamp) ∧
    matchesBackupGlob "config.backup.7.json" = true ∧
    pyInt? (lastDotSegment (pathStem "config.backup.7.json".data))
      = some 7 ∧
    fromtimestampOutcome 7 = DateOutcome.ok := by
  have h := list_backups_sorted_desc
    [("config.backup.5.json", Content.json Json.null),
     ("config.backup.7.json", Content.json Json.null)] (by decide)
  have h4 := h.2.2.2.1 ⟨"config.backup.7.json", 7⟩ (by decide)
  exact ⟨by decide, h.1, h.2.1, h4.1, h4.2.1, h4.2.2⟩

end EverAfter
